import Mathlib

/-!
Verification of the smart-routes travel-time estimator (src/main.py).

Shallow embedding conventions:
- Python floats are modelled as exact rationals (`ℚ`); the claims about the
  regression and the estimate formula are stated over this exact arithmetic.
- The traffic snapshot is opaque data: functions are polymorphic in the
  snapshot type `α`, mirroring the source, which never inspects the parsed
  JSON beyond its presence.
- The HTTP layer is modelled by a provider function returning
  `Except RequestException α`: `.error` stands for any
  `requests.exceptions.RequestException` raised during the fetch, `.ok` for a
  successful response with parsed body.
- The module-level fitted model is passed explicitly to the estimator
  functions (it is a read-only global in the source).
-/

namespace SmartRoutes

/-- A coordinate: a (latitude, longitude) pair of floats. -/
abbrev Coordinate := ℚ × ℚ

/-- The message text of a `requests.exceptions.RequestException`. -/
abbrev RequestException := String

/-- One historical observation: trip distance (km) and observed traffic delay
(minutes).  The source stores these as the two parallel lists of the
`historical_data` dict. -/
structure HistoricalSample where
  distance : ℚ
  traffic_delay : ℚ
deriving DecidableEq, Repr

/-- The `historical_data` dict of the source, zipped into samples:
distance = [5, 10, 15, 20], traffic_delay = [5, 10, 20, 25]. -/
def historical_data : List HistoricalSample :=
  [⟨5, 5⟩, ⟨10, 10⟩, ⟨15, 20⟩, ⟨20, 25⟩]

/-- A fitted univariate linear model: the `coef_`/`intercept_` pair of the
source's `LinearRegression` after `fit`. -/
structure LinearModel where
  slope : ℚ
  intercept : ℚ
deriving DecidableEq, Repr

/-- `model.predict([[d]])[0]` for a univariate linear model: slope * d + intercept. -/
def LinearModel.predict (m : LinearModel) (d : ℚ) : ℚ :=
  m.slope * d + m.intercept

/-- Error taxonomy of the Delay Model component (spec section 7). -/
inductive FitError where
  | InsufficientDataError
deriving DecidableEq, Repr

/-- Sum of the distances of a training set. -/
def sumX (samples : List HistoricalSample) : ℚ :=
  (samples.map (·.distance)).sum

/-- Sum of the delays of a training set. -/
def sumY (samples : List HistoricalSample) : ℚ :=
  (samples.map (·.traffic_delay)).sum

/-- Sum of distance * delay over a training set. -/
def sumXY (samples : List HistoricalSample) : ℚ :=
  (samples.map (fun s => s.distance * s.traffic_delay)).sum

/-- Sum of squared distances of a training set. -/
def sumXX (samples : List HistoricalSample) : ℚ :=
  (samples.map (fun s => s.distance * s.distance)).sum

/-- Whether every element of the list equals the first one (vacuously true for
the empty list). -/
def allEqual (l : List ℚ) : Bool :=
  match l with
  | [] => true
  | x :: xs => xs.all (fun z => decide (z = x))

/-- Ordinary least-squares slope in normal-equations form:
(n·Σxy − Σx·Σy) / (n·Σx² − (Σx)²). -/
def fitSlope (samples : List HistoricalSample) : ℚ :=
  ((samples.length : ℚ) * sumXY samples - sumX samples * sumY samples) /
    ((samples.length : ℚ) * sumXX samples - sumX samples * sumX samples)

/-- Ordinary least-squares intercept: mean of delays minus slope times mean of
distances. -/
def fitIntercept (samples : List HistoricalSample) : ℚ :=
  sumY samples / (samples.length : ℚ) -
    fitSlope samples * (sumX samples / (samples.length : ℚ))

/-- Modelled from the spec: the Delay Model `fit` contract (spec section 4.1).
The source delegates fitting to `sklearn.linear_model.LinearRegression`, whose
implementation is not part of this repository; the spec specifies ordinary
least-squares and failure with `InsufficientDataError` on fewer than 2 samples
or all-identical distances.  The non-degenerate branch is the closed-form
ordinary least-squares fit, which is what `LinearRegression.fit` computes. -/
def fit (samples : List HistoricalSample) : Except FitError LinearModel :=
  if samples.length < 2 then .error .InsufficientDataError
  else if allEqual (samples.map (·.distance)) then .error .InsufficientDataError
  else .ok ⟨fitSlope samples, fitIntercept samples⟩

instance {ε α : Type} [DecidableEq ε] [DecidableEq α] : DecidableEq (Except ε α) := fun a b =>
  match a, b with
  | .ok x, .ok y =>
    decidable_of_iff (x = y) ⟨fun h => by rw [h], fun h => by injection h⟩
  | .error x, .error y =>
    decidable_of_iff (x = y) ⟨fun h => by rw [h], fun h => by injection h⟩
  | .ok _, .error _ => .isFalse fun h => Except.noConfusion h
  | .error _, .ok _ => .isFalse fun h => Except.noConfusion h

/-- Mean of a list of rationals (0 for the empty list, as 0 / 0 = 0 in ℚ). -/
def mean (l : List ℚ) : ℚ := l.sum / (l.length : ℚ)

/-- Definition following the spec's words, for comparison with `fit`:
sample covariance of distance and delay, Σ(xᵢ − x̄)(yᵢ − ȳ) / n. -/
def covariance (samples : List HistoricalSample) : ℚ :=
  (samples.map (fun s =>
    (s.distance - mean (samples.map (·.distance))) *
      (s.traffic_delay - mean (samples.map (·.traffic_delay))))).sum /
    (samples.length : ℚ)

/-- Definition following the spec's words, for comparison with `fit`:
sample variance of the distances, Σ(xᵢ − x̄)² / n. -/
def distanceVariance (samples : List HistoricalSample) : ℚ :=
  (samples.map (fun s =>
    (s.distance - mean (samples.map (·.distance))) ^ 2)).sum /
    (samples.length : ℚ)

/-- The travel-time field of a Leg: the source returns either a float (minutes)
or a human-readable unavailability string from `estimate_travel_time`. -/
inductive EstimatedTime where
  | num (minutes : ℚ)
  | msg (text : String)
deriving DecidableEq, Repr

/-- Whether an estimate is a numeric value (as opposed to the unavailability
message). -/
def EstimatedTime.isNumeric : EstimatedTime → Bool
  | .num _ => true
  | .msg _ => false

/-- The literal string the source returns when traffic data is missing. -/
def unavailable_message : String :=
  "Unable to estimate time due to lack of traffic data."

/-- `get_real_time_traffic_data` of the source: performs the HTTP fetch inside
try/except and returns the parsed JSON, or `None` when any
`requests.exceptions.RequestException` was raised (including HTTP-status
errors via `raise_for_status`).  The fetch outcome is the argument. -/
def get_real_time_traffic_data {α : Type} (fetchResult : Except RequestException α) :
    Option α :=
  match fetchResult with
  | .ok data => some data
  | .error _ => none

/-- `estimate_travel_time` of the source: the unavailability message when
`real_traffic_data is None`, otherwise
`(distance / 50) * 60 + traffic_delay * real_time_factor` with
`traffic_delay = model.predict(distance)` and `real_time_factor = 1`. -/
def estimate_travel_time {α : Type} (model : LinearModel) (distance : ℚ)
    (real_traffic_data : Option α) : EstimatedTime :=
  match real_traffic_data with
  | none => .msg unavailable_message
  | some _ =>
    let traffic_delay := model.predict distance
    let real_time_factor : ℚ := 1
    .num ((distance / 50) * 60 + traffic_delay * real_time_factor)

/-- One entry of the route list built by `optimize_route`: the dict
`{'from': start, 'to': end, 'estimated_time': ...}`. -/
structure Leg where
  from_ : Coordinate
  to_ : Coordinate
  estimated_time : EstimatedTime
deriving DecidableEq, Repr

/-- `optimize_route` of the source: for each consecutive pair of locations,
use the placeholder distance 10, fetch traffic data through the provider
(modelling `get_real_time_traffic_data(api_key, start, end)` — the api_key and
network are folded into the provider function), estimate the travel time, and
append the leg.  `locations.zip locations.tail` is the list of pairs
`(locations[i], locations[i+1])` for `i in range(len(locations) - 1)`. -/
def optimize_route {α : Type} (model : LinearModel) (locations : List Coordinate)
    (provider : Coordinate → Coordinate → Except RequestException α) : List Leg :=
  (locations.zip locations.tail).map fun p =>
    let start := p.1
    let stop := p.2
    let distance : ℚ := 10
    let traffic_data := get_real_time_traffic_data (provider start stop)
    ⟨start, stop, estimate_travel_time model distance traffic_data⟩

/-! Helper lemmas. -/

theorem sumX_cons (s : HistoricalSample) (t : List HistoricalSample) :
    sumX (s :: t) = s.distance + sumX t := by
  simp [sumX]

theorem sumY_cons (s : HistoricalSample) (t : List HistoricalSample) :
    sumY (s :: t) = s.traffic_delay + sumY t := by
  simp [sumY]

theorem sumXY_cons (s : HistoricalSample) (t : List HistoricalSample) :
    sumXY (s :: t) = s.distance * s.traffic_delay + sumXY t := by
  simp [sumXY]

theorem sumXX_cons (s : HistoricalSample) (t : List HistoricalSample) :
    sumXX (s :: t) = s.distance * s.distance + sumXX t := by
  simp [sumXX]

/-- Expansion of the centered cross sum against arbitrary centers `a`, `b`. -/
theorem centered_dot_sum (samples : List HistoricalSample) (a b : ℚ) :
    (samples.map (fun s => (s.distance - a) * (s.traffic_delay - b))).sum =
      sumXY samples - a * sumY samples - b * sumX samples +
        (samples.length : ℚ) * (a * b) := by
  induction samples with
  | nil => simp [sumXY, sumX, sumY]
  | cons s t ih =>
    simp only [List.map_cons, List.sum_cons, sumXY_cons, sumX_cons, sumY_cons,
      List.length_cons, ih]
    push_cast
    ring

/-- Expansion of the centered square sum against an arbitrary center `a`. -/
theorem centered_sq_sum (samples : List HistoricalSample) (a : ℚ) :
    (samples.map (fun s => (s.distance - a) ^ 2)).sum =
      sumXX samples - 2 * a * sumX samples + (samples.length : ℚ) * a ^ 2 := by
  induction samples with
  | nil => simp [sumXX, sumX]
  | cons s t ih =>
    simp only [List.map_cons, List.sum_cons, sumXX_cons, sumX_cons,
      List.length_cons, ih]
    push_cast
    ring

theorem allEqual_eq_true_iff (l : List ℚ) :
    allEqual l = true ↔ ∀ a ∈ l, ∀ b ∈ l, a = b := by
  cases l with
  | nil => simp [allEqual]
  | cons x xs =>
    simp only [allEqual, List.all_eq_true, decide_eq_true_eq]
    constructor
    · intro h a ha b hb
      rcases List.mem_cons.mp ha with h1 | h1 <;>
        rcases List.mem_cons.mp hb with h2 | h2
      · rw [h1, h2]
      · rw [h1, h b h2]
      · rw [h a h1, h2]
      · rw [h a h1, h b h2]
    · intro h z hz
      exact h z (List.mem_cons_of_mem _ hz) x (List.mem_cons_self _ _)

theorem allEqual_distances_iff (samples : List HistoricalSample) :
    allEqual (samples.map (·.distance)) = true ↔
      ∀ s₁ ∈ samples, ∀ s₂ ∈ samples, s₁.distance = s₂.distance := by
  rw [allEqual_eq_true_iff]
  constructor
  · intro h s₁ h₁ s₂ h₂
    exact h _ (List.mem_map_of_mem _ h₁) _ (List.mem_map_of_mem _ h₂)
  · intro h a ha b hb
    rcases List.mem_map.mp ha with ⟨s₁, h₁, rfl⟩
    rcases List.mem_map.mp hb with ⟨s₂, h₂, rfl⟩
    exact h s₁ h₁ s₂ h₂

theorem two_le_length_of_distinct (samples : List HistoricalSample)
    (h : ∃ s₁ ∈ samples, ∃ s₂ ∈ samples, s₁.distance ≠ s₂.distance) :
    2 ≤ samples.length := by
  rcases h with ⟨s₁, h₁, s₂, h₂, hne⟩
  cases samples with
  | nil => simp at h₁
  | cons a t =>
    cases t with
    | nil =>
      simp only [List.mem_singleton] at h₁ h₂
      subst h₁
      subst h₂
      exact absurd rfl hne
    | cons b u => simp [List.length_cons]

theorem fit_ok_of_distinct (samples : List HistoricalSample)
    (h : ∃ s₁ ∈ samples, ∃ s₂ ∈ samples, s₁.distance ≠ s₂.distance) :
    fit samples = .ok ⟨fitSlope samples, fitIntercept samples⟩ := by
  have hlen := two_le_length_of_distinct samples h
  have hae : ¬ allEqual (samples.map (·.distance)) = true := by
    rcases h with ⟨s₁, h₁, s₂, h₂, hne⟩
    intro hT
    exact hne ((allEqual_distances_iff samples).mp hT s₁ h₁ s₂ h₂)
  unfold fit
  rw [if_neg (by omega), if_neg hae]

theorem mean_distances (samples : List HistoricalSample) :
    mean (samples.map (·.distance)) = sumX samples / (samples.length : ℚ) := by
  simp [mean, sumX, List.length_map]

theorem mean_delays (samples : List HistoricalSample) :
    mean (samples.map (·.traffic_delay)) = sumY samples / (samples.length : ℚ) := by
  simp [mean, sumY, List.length_map]

theorem covariance_eq (samples : List HistoricalSample)
    (hn : samples.length ≠ 0) :
    covariance samples =
      ((samples.length : ℚ) * sumXY samples - sumX samples * sumY samples) /
        ((samples.length : ℚ) ^ 2) := by
  have hq : (samples.length : ℚ) ≠ 0 := Nat.cast_ne_zero.mpr hn
  unfold covariance
  rw [mean_distances, mean_delays, centered_dot_sum]
  field_simp
  ring

theorem distanceVariance_eq (samples : List HistoricalSample)
    (hn : samples.length ≠ 0) :
    distanceVariance samples =
      ((samples.length : ℚ) * sumXX samples - sumX samples * sumX samples) /
        ((samples.length : ℚ) ^ 2) := by
  have hq : (samples.length : ℚ) ≠ 0 := Nat.cast_ne_zero.mpr hn
  unfold distanceVariance
  rw [mean_distances, centered_sq_sum]
  field_simp
  ring

theorem div_div_same (a b c : ℚ) (hc : c ≠ 0) : (a / c) / (b / c) = a / b := by
  rcases eq_or_ne b 0 with rfl | hb
  · simp
  · field_simp

theorem fitSlope_eq_cov_div_var (samples : List HistoricalSample)
    (hn : samples.length ≠ 0) :
    fitSlope samples = covariance samples / distanceVariance samples := by
  have hq : (samples.length : ℚ) ≠ 0 := Nat.cast_ne_zero.mpr hn
  rw [covariance_eq samples hn, distanceVariance_eq samples hn,
    div_div_same _ _ _ (pow_ne_zero 2 hq)]
  rfl

/-- Indexing into `l.zip l.tail`: entry `i` is the pair `(l[i], l[i+1])`. -/
theorem zip_tail_getElem? {β : Type} (l : List β) (i : ℕ) (a b : β)
    (ha : l[i]? = some a) (hb : l[i + 1]? = some b) :
    (l.zip l.tail)[i]? = some (a, b) := by
  induction l generalizing i with
  | nil => simp at ha
  | cons x xs ih =>
    cases xs with
    | nil =>
      simp at hb
    | cons y ys =>
      cases i with
      | zero =>
        simp only [List.getElem?_cons_zero, Option.some.injEq] at ha
        have hb' : y = b := by
          simpa using hb
        simp [List.zip_cons_cons, ha, hb']
      | succ j =>
        have ha' : (y :: ys)[j]? = some a := by simpa using ha
        have hb' : (y :: ys)[j + 1]? = some b := by simpa using hb
        have step := ih j ha' hb'
        simpa [List.zip_cons_cons] using step

/-- Length of `l.zip l.tail` is `l.length - 1`. -/
theorem zip_tail_length {β : Type} (l : List β) :
    (l.zip l.tail).length = l.length - 1 := by
  rw [List.length_zip, List.length_tail]
  omega

theorem optimize_route_length {α : Type} (model : LinearModel)
    (locations : List Coordinate)
    (provider : Coordinate → Coordinate → Except RequestException α) :
    (optimize_route model locations provider).length = locations.length - 1 := by
  unfold optimize_route
  rw [List.length_map, zip_tail_length]

theorem optimize_route_getElem? {α : Type} (model : LinearModel)
    (locations : List Coordinate)
    (provider : Coordinate → Coordinate → Except RequestException α)
    (i : ℕ) (a b : Coordinate)
    (ha : locations[i]? = some a) (hb : locations[i + 1]? = some b) :
    (optimize_route model locations provider)[i]? =
      some ⟨a, b, estimate_travel_time model 10
        (get_real_time_traffic_data (provider a b))⟩ := by
  unfold optimize_route
  rw [List.getElem?_map, zip_tail_getElem? locations i a b ha hb]
  rfl

/-! Concrete fixtures used by witnesses. -/

/-- Three concrete stops. -/
def locs3 : List Coordinate := [(0, 0), (1, 1), (2, 2)]

/-- The concrete fitted model of the source's training data. -/
def model0 : LinearModel := ⟨7 / 5, -5 / 2⟩

/-- A provider that always succeeds. -/
def okProvider : Coordinate → Coordinate → Except RequestException ℕ :=
  fun _ _ => .ok 0

/-- A second provider, extensionally equal to `okProvider`. -/
def okProvider2 : Coordinate → Coordinate → Except RequestException ℕ :=
  fun _ _ => .ok (2 - 2)

/-- A provider that always fails with a transport error. -/
def failProvider : Coordinate → Coordinate → Except RequestException ℕ :=
  fun _ _ => .error "network error"

/-! Claim theorems. -/

/-- C1: for every input sequence of N stop coordinates, `optimize_route`
returns exactly max(N − 1, 0) legs, in input order, leg i running from
stops[i] to stops[i+1]; for N ≤ 1 the route is empty (and the function is
total, so no error is raised). -/
theorem optimize_route_leg_structure {α : Type} (model : LinearModel)
    (locations : List Coordinate)
    (provider : Coordinate → Coordinate → Except RequestException α) :
    (optimize_route model locations provider).length = locations.length - 1 ∧
    (∀ i a b, locations[i]? = some a → locations[i + 1]? = some b →
      ((optimize_route model locations provider)[i]?).map
        (fun leg => (leg.from_, leg.to_)) = some (a, b)) ∧
    (locations.length ≤ 1 → optimize_route model locations provider = []) := by
  refine ⟨optimize_route_length model locations provider, ?_, ?_⟩
  · intro i a b ha hb
    rw [optimize_route_getElem? model locations provider i a b ha hb]
    rfl
  · intro hle
    have hlen := optimize_route_length model locations provider
    have hzero : (optimize_route model locations provider).length = 0 := by omega
    exact List.length_eq_zero.mp hzero

/-- Witness for C1 at three concrete stops: leg 0 runs from stop 0 to stop 1. -/
theorem optimize_route_leg_structure_witness :
    ((optimize_route model0 locs3 okProvider)[0]?).map
      (fun leg => (leg.from_, leg.to_)) =
      some ((((0 : ℚ), (0 : ℚ)), ((1 : ℚ), (1 : ℚ))) : Coordinate × Coordinate) :=
  (optimize_route_leg_structure model0 locs3 okProvider).2.1 0 (0, 0) (1, 1)
    (by decide) (by decide)

/-- C2: with a present traffic snapshot the estimate is exactly
(distance / 50) * 60 + model.predict(distance) * 1, with fixed assumed speed
50 and fixed real-time factor 1. -/
theorem estimate_travel_time_present {α : Type} (model : LinearModel)
    (distance : ℚ) (snapshot : α) :
    estimate_travel_time model distance (some snapshot) =
      .num ((distance / 50) * 60 + model.predict distance * 1) := rfl

/-- C3: with an absent traffic snapshot the result is the literal
unavailability message, and is not a numeric value. -/
theorem estimate_travel_time_absent {α : Type} (model : LinearModel)
    (distance : ℚ) :
    estimate_travel_time model distance (none : Option α) =
      .msg "Unable to estimate time due to lack of traffic data." ∧
    (estimate_travel_time model distance (none : Option α)).isNumeric = false :=
  ⟨rfl, rfl⟩

/-- C4 (counterexample): on the source's training data the least-squares fit
predicts 23/2 = 11.5 at distance 10, which differs from the claimed ≈10.5 by
a full unit (more than any reading of "approximately"). -/
theorem fit_concrete_counterexample :
    (fit historical_data).map (fun m => m.predict 10) = .ok (23 / 2) ∧
    (1 / 2 : ℚ) < |(23 : ℚ) / 2 - 21 / 2| := by
  constructor
  · simp [fit, historical_data, fitSlope, fitIntercept, sumX, sumY, sumXY,
      sumXX, allEqual, LinearModel.predict, Except.map]
    norm_num
  · norm_num

/-- C4 (amended): fitting on distance = [5, 10, 15, 20],
delay = [5, 10, 20, 25] yields slope exactly 1.4 and intercept exactly −2.5,
and predict(10) = 11.5, matching the closed-form least-squares calculation
(slope = covariance / variance). -/
theorem fit_concrete :
    fit historical_data = .ok ⟨1.4, -2.5⟩ ∧
    (fit historical_data).map (fun m => m.predict 10) = .ok 11.5 ∧
    fitSlope historical_data =
      covariance historical_data / distanceVariance historical_data := by
  refine ⟨?_, ?_, fitSlope_eq_cov_div_var historical_data (by simp [historical_data])⟩
  · simp [fit, historical_data, fitSlope, fitIntercept, sumX, sumY, sumXY,
      sumXX, allEqual]
    norm_num
  · simp [fit, historical_data, fitSlope, fitIntercept, sumX, sumY, sumXY,
      sumXX, allEqual, LinearModel.predict, Except.map]
    norm_num

/-- C5: `fit` fails with `InsufficientDataError` exactly when the training set
has fewer than 2 samples or all-identical distances, and succeeds for every
training set containing two samples with distinct distances. -/
theorem fit_insufficient_data (samples : List HistoricalSample) :
    (fit samples = .error .InsufficientDataError ↔
      samples.length < 2 ∨
        ∀ s₁ ∈ samples, ∀ s₂ ∈ samples, s₁.distance = s₂.distance) ∧
    ((∃ s₁ ∈ samples, ∃ s₂ ∈ samples, s₁.distance ≠ s₂.distance) →
      ∃ m, fit samples = .ok m) := by
  constructor
  · constructor
    · intro herr
      by_contra hcon
      push_neg at hcon
      obtain ⟨h2, hne⟩ := hcon
      rw [fit_ok_of_distinct samples hne] at herr
      exact Except.noConfusion herr
    · intro hcond
      unfold fit
      by_cases hlt : samples.length < 2
      · rw [if_pos hlt]
      · rcases hcond with hlen | hall
        · exact absurd hlen hlt
        · rw [if_neg hlt, if_pos ((allEqual_distances_iff samples).mpr hall)]
  · intro h
    exact ⟨_, fit_ok_of_distinct samples h⟩

/-- Witness for C5: the source's training data has two distinct distances, so
`fit` succeeds on it. -/
theorem fit_insufficient_data_witness : ∃ m, fit historical_data = .ok m :=
  (fit_insufficient_data historical_data).2
    ⟨⟨5, 5⟩, by decide, ⟨10, 10⟩, by decide, by norm_num⟩

/-- C6: for every training set with at least two distinct distance values,
`fit` succeeds and reproduces closed-form simple linear regression:
slope = covariance(distance, delay) / variance(distance),
intercept = mean(delay) − slope · mean(distance), and
predict d = slope · d + intercept (exactly, over ℚ). -/
theorem fit_matches_least_squares (samples : List HistoricalSample)
    (h : ∃ s₁ ∈ samples, ∃ s₂ ∈ samples, s₁.distance ≠ s₂.distance) :
    ∃ m, fit samples = .ok m ∧
      m.slope = covariance samples / distanceVariance samples ∧
      m.intercept = mean (samples.map (·.traffic_delay)) -
        m.slope * mean (samples.map (·.distance)) ∧
      ∀ d, m.predict d = m.slope * d + m.intercept := by
  have hn : samples.length ≠ 0 := by
    have := two_le_length_of_distinct samples h
    omega
  refine ⟨⟨fitSlope samples, fitIntercept samples⟩, fit_ok_of_distinct samples h,
    fitSlope_eq_cov_div_var samples hn, ?_, fun d => rfl⟩
  show fitIntercept samples = mean (samples.map (·.traffic_delay)) -
    fitSlope samples * mean (samples.map (·.distance))
  rw [mean_distances, mean_delays]
  rfl

/-- Witness for C6 at the source's training data. -/
theorem fit_matches_least_squares_witness :
    ∃ m, fit historical_data = .ok m ∧
      m.slope = covariance historical_data / distanceVariance historical_data ∧
      m.intercept = mean (historical_data.map (·.traffic_delay)) -
        m.slope * mean (historical_data.map (·.distance)) ∧
      ∀ d, m.predict d = m.slope * d + m.intercept :=
  fit_matches_least_squares historical_data
    ⟨⟨5, 5⟩, by decide, ⟨10, 10⟩, by decide, by norm_num⟩

/-- C7: a provider failure is absorbed per leg: the fetch yields an absent
snapshot, the route is still complete (max(N − 1, 0) legs), and the affected
leg appears with the unavailability message — the failure is never propagated
to the caller. -/
theorem provider_failure_absorbed {α : Type} (model : LinearModel)
    (locations : List Coordinate)
    (provider : Coordinate → Coordinate → Except RequestException α)
    (i : ℕ) (a b : Coordinate) (e : RequestException)
    (ha : locations[i]? = some a) (hb : locations[i + 1]? = some b)
    (hfail : provider a b = .error e) :
    get_real_time_traffic_data (provider a b) = none ∧
    (optimize_route model locations provider).length = locations.length - 1 ∧
    ((optimize_route model locations provider)[i]?).map Leg.estimated_time =
      some (.msg unavailable_message) := by
  refine ⟨by rw [hfail]; rfl, optimize_route_length model locations provider, ?_⟩
  rw [optimize_route_getElem? model locations provider i a b ha hb, hfail]
  rfl

/-- Witness for C7 with a provider that always fails. -/
theorem provider_failure_absorbed_witness :
    get_real_time_traffic_data (failProvider (0, 0) (1, 1)) = none ∧
    (optimize_route model0 locs3 failProvider).length = locs3.length - 1 ∧
    ((optimize_route model0 locs3 failProvider)[0]?).map Leg.estimated_time =
      some (.msg unavailable_message) :=
  provider_failure_absorbed model0 locs3 failProvider 0 (0, 0) (1, 1)
    "network error" (by decide) (by decide) rfl

/-- C8: the numeric estimate does not depend on the snapshot's contents: two
runs with the same distance and model and any two distinct present snapshots
produce equal estimates. -/
theorem snapshot_contents_irrelevant {α : Type} (model : LinearModel)
    (distance : ℚ) (s₁ s₂ : α) (_hne : s₁ ≠ s₂) :
    estimate_travel_time model distance (some s₁) =
      estimate_travel_time model distance (some s₂) := rfl

/-- Witness for C8 at two distinct concrete snapshots. -/
theorem snapshot_contents_irrelevant_witness :
    estimate_travel_time model0 10 (some (0 : ℕ)) =
      estimate_travel_time model0 10 (some (1 : ℕ)) :=
  snapshot_contents_irrelevant model0 10 (0 : ℕ) 1 (by decide)

/-- C9: `optimize_route` is deterministic: two providers returning the same
snapshot for each (start, end) pair yield identical routes (with the same
stops and the same model). -/
theorem optimize_route_deterministic {α : Type} (model : LinearModel)
    (locations : List Coordinate)
    (p₁ p₂ : Coordinate → Coordinate → Except RequestException α)
    (hagree : ∀ s e, p₁ s e = p₂ s e) :
    optimize_route model locations p₁ = optimize_route model locations p₂ := by
  unfold optimize_route
  refine List.map_congr_left ?_
  intro p _
  simp only [hagree]

/-- Witness for C9 with two extensionally equal providers. -/
theorem optimize_route_deterministic_witness :
    optimize_route model0 locs3 okProvider = optimize_route model0 locs3 okProvider2 :=
  optimize_route_deterministic model0 locs3 okProvider okProvider2
    (fun _ _ => rfl)

/-- C10: `optimize_route` uses the fixed placeholder distance 10 for every
pair: any leg whose provider call succeeds gets the estimate
(10 / 50) * 60 + predict(10) * 1, independent of its start and end
coordinates. -/
theorem fixed_placeholder_distance {α : Type} (model : LinearModel)
    (locations : List Coordinate)
    (provider : Coordinate → Coordinate → Except RequestException α)
    (i : ℕ) (a b : Coordinate) (s : α)
    (ha : locations[i]? = some a) (hb : locations[i + 1]? = some b)
    (hok : provider a b = .ok s) :
    ((optimize_route model locations provider)[i]?).map Leg.estimated_time =
      some (.num ((10 / 50) * 60 + model.predict 10 * 1)) := by
  rw [optimize_route_getElem? model locations provider i a b ha hb, hok]
  rfl

/-- Witness for C10 at concrete stops with an always-succeeding provider. -/
theorem fixed_placeholder_distance_witness :
    ((optimize_route model0 locs3 okProvider)[0]?).map Leg.estimated_time =
      some (.num ((10 / 50) * 60 + model0.predict 10 * 1)) :=
  fixed_placeholder_distance model0 locs3 okProvider 0 (0, 0) (1, 1) 0
    (by decide) (by decide) rfl

end SmartRoutes
